import Mathlib

/-!
# Metric and scope registry of `common/metrics/defs.go`

A shallow embedding of the declarative tables of the `metrics` package:
the `iota` constant blocks, the two nested maps `ScopeDefs` and `MetricDefs`,
and the base-metric maps `ServiceMetrics` and `GoRuntimeMetrics`.

Go map literals are embedded as association lists in source order (a Go map
literal with a repeated constant key does not compile, so the order carries no
meaning), and indexing a map with the comma-ok form is `mapGet`.
Go `int` values are `Int`.
-/

namespace metrics

/-! ## Types -/

/-- MetricName is the name of the metric (`type MetricName string`). -/
abbrev MetricName := String

/-- MetricType is the type of the metric (`type MetricType int`). -/
abbrev MetricType := Int

/-- Go struct `metricDefinition`: the definition for a metric. -/
structure metricDefinition where
  metricType : MetricType
  metricName : MetricName
  deriving DecidableEq, Repr

/-- Go struct `scopeDefinition`: the tag definitions for a scope. The field
`tags` is a Go `map[string]string`; the zero value (nil map) has no entries. -/
structure scopeDefinition where
  operation : String
  tags : List (String × String) := []
  deriving DecidableEq, Repr

/-- ServiceIdx is an index that uniquely identifies the service
(`type ServiceIdx int`). -/
abbrev ServiceIdx := Int

/-- Go map indexing `v, ok := m[k]` on a map given as an association list. -/
def mapGet {κ β : Type} [DecidableEq κ] (k : κ) : List (κ × β) → Option β
  | [] => none
  | (k', v) :: rest => if k' = k then some v else mapGet k rest

/-- Key set of a map given as an association list. -/
def mapKeys {κ β : Type} (m : List (κ × β)) : List κ :=
  m.map Prod.fst

/-- Go map indexing of a nested map: a missing outer key yields the nil map. -/
def innerMap {β : Type} (s : ServiceIdx)
    (m : List (ServiceIdx × List (Int × β))) : List (Int × β) :=
  match mapGet s m with
  | some t => t
  | none => []

/-! ## MetricTypes which are supported (`iota` block) -/

def Counter : MetricType := 0
def Timer : MetricType := 1
def Gauge : MetricType := 2

/-! ## Service names for all services that emit metrics (`iota` block) -/

def Common : ServiceIdx := 0
def Frontend : ServiceIdx := 1
def History : ServiceIdx := 2
def Matching : ServiceIdx := 3
def NumServices : ServiceIdx := 4

/-! ## Common service base metrics -/

def RestartCount : MetricName := "restarts"
def NumGoRoutinesGauge : MetricName := "num-goroutines"
def GoMaxProcsGauge : MetricName := "gomaxprocs"
def MemoryAllocatedGauge : MetricName := "memory.allocated"
def MemoryHeapGauge : MetricName := "memory.heap"
def MemoryHeapIdleGauge : MetricName := "memory.heapidle"
def MemoryHeapInuseGauge : MetricName := "memory.heapinuse"
def MemoryStackGauge : MetricName := "memory.stack"
def NumGCCounter : MetricName := "memory.num-gc"
def GcPauseMsTimer : MetricName := "memory.gc-pause-ms"

/-- The constants of the block of common service base metrics, in declaration
order. -/
def baseMetricNames : List MetricName :=
  [ RestartCount, NumGoRoutinesGauge, GoMaxProcsGauge, MemoryAllocatedGauge,
    MemoryHeapGauge, MemoryHeapIdleGauge, MemoryHeapInuseGauge, MemoryStackGauge,
    NumGCCounter, GcPauseMsTimer ]

/-- ServiceMetrics are types for common service base metrics. -/
def ServiceMetrics : List (MetricName × MetricType) :=
  [ (RestartCount, Counter) ]

/-- GoRuntimeMetrics represent the runtime stats from go runtime. -/
def GoRuntimeMetrics : List (MetricName × MetricType) :=
  [ (NumGoRoutinesGauge, Gauge),
    (GoMaxProcsGauge, Gauge),
    (MemoryAllocatedGauge, Gauge),
    (MemoryHeapGauge, Gauge),
    (MemoryHeapIdleGauge, Gauge),
    (MemoryHeapInuseGauge, Gauge),
    (MemoryStackGauge, Gauge),
    (NumGCCounter, Counter),
    (GcPauseMsTimer, Timer) ]

/-! ## Scopes enum: common operation scopes (`= iota`, one per line) -/

def CreateShardScope : Int := 0
def GetShardScope : Int := 1
def UpdateShardScope : Int := 2
def CreateWorkflowExecutionScope : Int := 3
def GetWorkflowExecutionScope : Int := 4
def UpdateWorkflowExecutionScope : Int := 5
def DeleteWorkflowExecutionScope : Int := 6
def GetTransferTasksScope : Int := 7
def CompleteTransferTaskScope : Int := 8
def GetTimerIndexTasksScope : Int := 9
def GetWorkflowMutableStateScope : Int := 10
def CreateTaskScope : Int := 11
def GetTasksScope : Int := 12
def CompleteTaskScope : Int := 13
def LeaseTaskListScope : Int := 14
def UpdateTaskListScope : Int := 15
def HistoryClientStartWorkflowExecutionScope : Int := 16
def HistoryClientRecordActivityTaskHeartbeatScope : Int := 17
def HistoryClientRespondDecisionTaskCompletedScope : Int := 18
def HistoryClientRespondActivityTaskCompletedScope : Int := 19
def HistoryClientRespondActivityTaskFailedScope : Int := 20
def HistoryClientGetWorkflowExecutionHistoryScope : Int := 21
def HistoryClientRecordDecisionTaskStartedScope : Int := 22
def HistoryClientRecordActivityTaskStartedScope : Int := 23
def MatchingClientPollForDecisionTaskScope : Int := 24
def MatchingClientPollForActivityTaskScope : Int := 25
def MatchingClientAddActivityTaskScope : Int := 26
def MatchingClientAddDecisionTaskScope : Int := 27
def NumCommonScopes : Int := 28

/-! ## Operation scopes for Frontend service (`= iota + NumCommonScopes`) -/

def StartWorkflowExecutionScope : Int := 0 + NumCommonScopes
def PollForDecisionTaskScope : Int := 1 + NumCommonScopes
def PollForActivityTaskScope : Int := 2 + NumCommonScopes
def RecordActivityTaskHeartbeatScope : Int := 3 + NumCommonScopes
def RespondDecisionTaskCompletedScope : Int := 4 + NumCommonScopes
def RespondActivityTaskCompletedScope : Int := 5 + NumCommonScopes
def RespondActivityTaskFailedScope : Int := 6 + NumCommonScopes
def GetWorkflowExecutionHistoryScope : Int := 7 + NumCommonScopes
def NumFrontendScopes : Int := 8 + NumCommonScopes

/-! ## Operation scopes for History service (`= iota + NumCommonScopes`) -/

def HistoryStartWorkflowExecutionScope : Int := 0 + NumCommonScopes
def HistoryRecordActivityTaskHeartbeatScope : Int := 1 + NumCommonScopes
def HistoryRespondDecisionTaskCompletedScope : Int := 2 + NumCommonScopes
def HistoryRespondActivityTaskCompletedScope : Int := 3 + NumCommonScopes
def HistoryRespondActivityTaskFailedScope : Int := 4 + NumCommonScopes
def HistoryGetWorkflowExecutionHistoryScope : Int := 5 + NumCommonScopes
def HistoryRecordDecisionTaskStartedScope : Int := 6 + NumCommonScopes
def HistoryRecordActivityTaskStartedScope : Int := 7 + NumCommonScopes
def NumHistoryScopes : Int := 8 + NumCommonScopes

/-! ## Operation scopes for Matching service (`= iota + NumCommonScopes`) -/

def MatchingPollForDecisionTaskScope : Int := 0 + NumCommonScopes
def MatchingPollForActivityTaskScope : Int := 1 + NumCommonScopes
def MatchingAddActivityTaskScope : Int := 2 + NumCommonScopes
def MatchingAddDecisionTaskScope : Int := 3 + NumCommonScopes
def NumMatchingScopes : Int := 4 + NumCommonScopes

/-- Named constants of the common scope block, in declaration order
(the running counter `NumCommonScopes` is not a scope and is left out). -/
def commonScopeConsts : List (String × Int) :=
  [ ("CreateShardScope", CreateShardScope),
    ("GetShardScope", GetShardScope),
    ("UpdateShardScope", UpdateShardScope),
    ("CreateWorkflowExecutionScope", CreateWorkflowExecutionScope),
    ("GetWorkflowExecutionScope", GetWorkflowExecutionScope),
    ("UpdateWorkflowExecutionScope", UpdateWorkflowExecutionScope),
    ("DeleteWorkflowExecutionScope", DeleteWorkflowExecutionScope),
    ("GetTransferTasksScope", GetTransferTasksScope),
    ("CompleteTransferTaskScope", CompleteTransferTaskScope),
    ("GetTimerIndexTasksScope", GetTimerIndexTasksScope),
    ("GetWorkflowMutableStateScope", GetWorkflowMutableStateScope),
    ("CreateTaskScope", CreateTaskScope),
    ("GetTasksScope", GetTasksScope),
    ("CompleteTaskScope", CompleteTaskScope),
    ("LeaseTaskListScope", LeaseTaskListScope),
    ("UpdateTaskListScope", UpdateTaskListScope),
    ("HistoryClientStartWorkflowExecutionScope", HistoryClientStartWorkflowExecutionScope),
    ("HistoryClientRecordActivityTaskHeartbeatScope", HistoryClientRecordActivityTaskHeartbeatScope),
    ("HistoryClientRespondDecisionTaskCompletedScope", HistoryClientRespondDecisionTaskCompletedScope),
    ("HistoryClientRespondActivityTaskCompletedScope", HistoryClientRespondActivityTaskCompletedScope),
    ("HistoryClientRespondActivityTaskFailedScope", HistoryClientRespondActivityTaskFailedScope),
    ("HistoryClientGetWorkflowExecutionHistoryScope", HistoryClientGetWorkflowExecutionHistoryScope),
    ("HistoryClientRecordDecisionTaskStartedScope", HistoryClientRecordDecisionTaskStartedScope),
    ("HistoryClientRecordActivityTaskStartedScope", HistoryClientRecordActivityTaskStartedScope),
    ("MatchingClientPollForDecisionTaskScope", MatchingClientPollForDecisionTaskScope),
    ("MatchingClientPollForActivityTaskScope", MatchingClientPollForActivityTaskScope),
    ("MatchingClientAddActivityTaskScope", MatchingClientAddActivityTaskScope),
    ("MatchingClientAddDecisionTaskScope", MatchingClientAddDecisionTaskScope) ]

/-- Named constants of the Frontend scope block, in declaration order. -/
def frontendScopeConsts : List (String × Int) :=
  [ ("StartWorkflowExecutionScope", StartWorkflowExecutionScope),
    ("PollForDecisionTaskScope", PollForDecisionTaskScope),
    ("PollForActivityTaskScope", PollForActivityTaskScope),
    ("RecordActivityTaskHeartbeatScope", RecordActivityTaskHeartbeatScope),
    ("RespondDecisionTaskCompletedScope", RespondDecisionTaskCompletedScope),
    ("RespondActivityTaskCompletedScope", RespondActivityTaskCompletedScope),
    ("RespondActivityTaskFailedScope", RespondActivityTaskFailedScope),
    ("GetWorkflowExecutionHistoryScope", GetWorkflowExecutionHistoryScope) ]

/-- Named constants of the History scope block, in declaration order. -/
def historyScopeConsts : List (String × Int) :=
  [ ("HistoryStartWorkflowExecutionScope", HistoryStartWorkflowExecutionScope),
    ("HistoryRecordActivityTaskHeartbeatScope", HistoryRecordActivityTaskHeartbeatScope),
    ("HistoryRespondDecisionTaskCompletedScope", HistoryRespondDecisionTaskCompletedScope),
    ("HistoryRespondActivityTaskCompletedScope", HistoryRespondActivityTaskCompletedScope),
    ("HistoryRespondActivityTaskFailedScope", HistoryRespondActivityTaskFailedScope),
    ("HistoryGetWorkflowExecutionHistoryScope", HistoryGetWorkflowExecutionHistoryScope),
    ("HistoryRecordDecisionTaskStartedScope", HistoryRecordDecisionTaskStartedScope),
    ("HistoryRecordActivityTaskStartedScope", HistoryRecordActivityTaskStartedScope) ]

/-- Named constants of the Matching scope block, in declaration order. -/
def matchingScopeConsts : List (String × Int) :=
  [ ("MatchingPollForDecisionTaskScope", MatchingPollForDecisionTaskScope),
    ("MatchingPollForActivityTaskScope", MatchingPollForActivityTaskScope),
    ("MatchingAddActivityTaskScope", MatchingAddActivityTaskScope),
    ("MatchingAddDecisionTaskScope", MatchingAddDecisionTaskScope) ]

/-- All named scope constants of the four blocks of the scopes enum. -/
def allScopeConsts : List (String × Int) :=
  commonScopeConsts ++ frontendScopeConsts ++ historyScopeConsts ++ matchingScopeConsts

/-! ## ScopeDefs record the scopes for all services -/

/-- Inner map literal of `ScopeDefs` under the key `Common`. -/
def commonScopeDefs : List (Int × scopeDefinition) :=
  [ (CreateShardScope, { operation := "CreateShard" }),
    (GetShardScope, { operation := "GetShard" }),
    (UpdateShardScope, { operation := "UpdateShard" }),
    (CreateWorkflowExecutionScope, { operation := "CreateWorkflowExecution" }),
    (GetWorkflowExecutionScope, { operation := "GetWorkflowExecution" }),
    (UpdateWorkflowExecutionScope, { operation := "UpdateWorkflowExecution" }),
    (DeleteWorkflowExecutionScope, { operation := "DeleteWorkflowExecution" }),
    (GetTransferTasksScope, { operation := "GetTransferTasks" }),
    (CompleteTransferTaskScope, { operation := "CompleteTransferTask" }),
    (GetTimerIndexTasksScope, { operation := "GetTimerIndexTasks" }),
    (GetWorkflowMutableStateScope, { operation := "GetWorkflowMutableState" }),
    (CreateTaskScope, { operation := "CreateTask" }),
    (GetTasksScope, { operation := "GetTasks" }),
    (CompleteTaskScope, { operation := "CompleteTask" }),
    (LeaseTaskListScope, { operation := "LeaseTaskList" }),
    (UpdateTaskListScope, { operation := "UpdateTaskList" }),
    (HistoryClientStartWorkflowExecutionScope,
      { operation := "HistoryClientStartWorkflowExecution" }),
    (HistoryClientRecordActivityTaskHeartbeatScope,
      { operation := "HistoryClientRecordActivityTaskHeartbeat" }),
    (HistoryClientRespondDecisionTaskCompletedScope,
      { operation := "HistoryClientRespondDecisionTaskCompleted" }),
    (HistoryClientRespondActivityTaskCompletedScope,
      { operation := "HistoryClientRespondActivityTaskCompleted" }),
    (HistoryClientRespondActivityTaskFailedScope,
      { operation := "HistoryClientRespondActivityTaskFailed" }),
    (HistoryClientGetWorkflowExecutionHistoryScope,
      { operation := "HistoryClientGetWorkflowExecutionHistory" }),
    (HistoryClientRecordDecisionTaskStartedScope,
      { operation := "HistoryClientRecordDecisionTaskStarted" }),
    (HistoryClientRecordActivityTaskStartedScope,
      { operation := "HistoryClientRecordActivityTaskStarted" }),
    (MatchingClientPollForDecisionTaskScope,
      { operation := "MatchingClientPollForDecisionTask" }),
    (MatchingClientPollForActivityTaskScope,
      { operation := "MatchingClientPollForActivityTask" }),
    (MatchingClientAddActivityTaskScope,
      { operation := "MatchingClientAddActivityTask" }),
    (MatchingClientAddDecisionTaskScope,
      { operation := "MatchingClientAddDecisionTask" }) ]

/-- Inner map literal of `ScopeDefs` under the key `Frontend`. -/
def frontendScopeDefs : List (Int × scopeDefinition) :=
  [ (StartWorkflowExecutionScope, { operation := "StartWorkflowExecution" }),
    (PollForDecisionTaskScope, { operation := "PollForDecisionTask" }),
    (PollForActivityTaskScope, { operation := "PollForActivityTask" }),
    (RecordActivityTaskHeartbeatScope, { operation := "RecordActivityTaskHeartbeat" }),
    (RespondDecisionTaskCompletedScope, { operation := "RespondDecisionTaskCompleted" }),
    (RespondActivityTaskCompletedScope, { operation := "RespondActivityTaskCompleted" }),
    (RespondActivityTaskFailedScope, { operation := "RespondActivityTaskFailed" }),
    (GetWorkflowExecutionHistoryScope, { operation := "GetWorkflowExecutionHistory" }) ]

/-- Inner map literal of `ScopeDefs` under the key `History`. -/
def historyScopeDefs : List (Int × scopeDefinition) :=
  [ (HistoryStartWorkflowExecutionScope, { operation := "StartWorkflowExecution" }),
    (HistoryRecordActivityTaskHeartbeatScope, { operation := "RecordActivityTaskHeartbeat" }),
    (HistoryRespondDecisionTaskCompletedScope,
      { operation := "RespondDecisionTaskCompleted" }),
    (HistoryRespondActivityTaskCompletedScope,
      { operation := "RespondActivityTaskCompleted" }),
    (HistoryRespondActivityTaskFailedScope, { operation := "RespondActivityTaskFailed" }),
    (HistoryGetWorkflowExecutionHistoryScope,
      { operation := "GetWorkflowExecutionHistory" }),
    (HistoryRecordDecisionTaskStartedScope, { operation := "RecordDecisionTaskStarted" }),
    (HistoryRecordActivityTaskStartedScope, { operation := "RecordActivityTaskStarted" }) ]

/-- Inner map literal of `ScopeDefs` under the key `Matching`. -/
def matchingScopeDefs : List (Int × scopeDefinition) :=
  [ (MatchingPollForDecisionTaskScope, { operation := "PollForDecisionTask" }),
    (MatchingPollForActivityTaskScope, { operation := "PollForActivityTask" }),
    (MatchingAddActivityTaskScope, { operation := "AddActivityTask" }),
    (MatchingAddDecisionTaskScope, { operation := "AddDecisionTask" }) ]

/-- ScopeDefs record the scopes for all services
(`map[ServiceIdx]map[int]scopeDefinition`). -/
def ScopeDefs : List (ServiceIdx × List (Int × scopeDefinition)) :=
  [ (Common, commonScopeDefs),
    (Frontend, frontendScopeDefs),
    (History, historyScopeDefs),
    (Matching, matchingScopeDefs) ]

/-! ## Metrics enum (`iota` block) -/

def WorkflowRequests : Int := 0
def WorkflowFailures : Int := 1
def WorkflowLatency : Int := 2

/-- MetricDefs record the metrics for all services
(`map[ServiceIdx]map[int]metricDefinition`). -/
def MetricDefs : List (ServiceIdx × List (Int × metricDefinition)) :=
  [ (Common,
      [ (WorkflowRequests, { metricName := "requests", metricType := Counter }),
        (WorkflowFailures, { metricName := "errors", metricType := Counter }),
        (WorkflowLatency, { metricName := "latency", metricType := Timer }) ]),
    (Frontend, []),
    (History, []),
    (Matching, []) ]

/-! ## Two-level lookups -/

/-- Modelled from the spec: the two-level lookup shared by `ResolveScope` and
`ResolveMetric`, which live in the metrics emission client and not in
`defs.go`. Per the spec the per-service table is consulted first, then the
shared `Common` table if the service has no specific entry for that id; the
lookup fails (`none`) if neither table has the id. -/
def twoLevelGet {β : Type} (id : Int) (specific common : List (Int × β)) : Option β :=
  match mapGet id specific with
  | some d => some d
  | none => mapGet id common

/-- Modelled from the spec: the function `ResolveScope` lives in the metrics
emission client, which is not part of `defs.go`. Per the spec it consults the
per-service table first, then falls back to the shared `Common` table if the
service has no specific entry for that id, and fails if neither table has the
id (`none`). -/
def ResolveScope (service : ServiceIdx) (scopeID : Int) : Option scopeDefinition :=
  twoLevelGet scopeID (innerMap service ScopeDefs) (innerMap Common ScopeDefs)

/-- Modelled from the spec: the function `ResolveMetric` lives in the metrics
emission client, which is not part of `defs.go`. Per the spec it is the same
two-level lookup (service-specific, then `Common`) returning metric name and
type. -/
def ResolveMetric (service : ServiceIdx) (metricID : Int) : Option metricDefinition :=
  twoLevelGet metricID (innerMap service MetricDefs) (innerMap Common MetricDefs)

/-! ## Generic facts about association-list maps -/

theorem mapGet_eq_none_iff {κ β : Type} [DecidableEq κ] (k : κ) (m : List (κ × β)) :
    mapGet k m = none ↔ k ∉ mapKeys m := by
  induction m with
  | nil => simp [mapGet, mapKeys]
  | cons e rest ih =>
    obtain ⟨k', v⟩ := e
    by_cases h : k' = k
    · simp [mapGet, mapKeys, h]
    · have h' : ¬ k = k' := fun c => h c.symm
      simpa [mapGet, mapKeys, h, h'] using ih

theorem mapGet_isSome_iff {κ β : Type} [DecidableEq κ] (k : κ) (m : List (κ × β)) :
    (mapGet k m).isSome ↔ k ∈ mapKeys m := by
  rw [← not_iff_not, ← mapGet_eq_none_iff]
  cases mapGet k m <;> simp

theorem mapGet_mem {κ β : Type} [DecidableEq κ] (k : κ) (m : List (κ × β)) (v : β)
    (h : mapGet k m = some v) : (k, v) ∈ m := by
  induction m with
  | nil => simp [mapGet] at h
  | cons e rest ih =>
    obtain ⟨k', v'⟩ := e
    by_cases hk : k' = k
    · simp [mapGet, hk] at h
      simp [hk, h]
    · simp [mapGet, hk] at h
      exact List.mem_cons_of_mem _ (ih h)

/-- The two-level lookup succeeds exactly on the union of the two key sets. -/
theorem twoLevelGet_isSome_iff {β : Type} (k : Int) (a b : List (Int × β)) :
    (twoLevelGet k a b).isSome ↔ k ∈ mapKeys a ∨ k ∈ mapKeys b := by
  rw [← mapGet_isSome_iff, ← mapGet_isSome_iff]
  unfold twoLevelGet
  cases mapGet k a <;> simp

theorem ResolveScope_isSome_iff (s : ServiceIdx) (id : Int) :
    (ResolveScope s id).isSome ↔
      id ∈ mapKeys (innerMap s ScopeDefs) ∨ id ∈ mapKeys (innerMap Common ScopeDefs) :=
  twoLevelGet_isSome_iff id _ _

/-- A successful two-level scope lookup returns an entry of one of the two tables. -/
theorem ResolveScope_mem (s : ServiceIdx) (id : Int) (d : scopeDefinition)
    (h : ResolveScope s id = some d) :
    (id, d) ∈ innerMap s ScopeDefs ∨ (id, d) ∈ innerMap Common ScopeDefs := by
  unfold ResolveScope twoLevelGet at h
  cases hg : mapGet id (innerMap s ScopeDefs) with
  | some d' =>
    rw [hg] at h
    simp only [Option.some.injEq] at h
    subst h
    exact Or.inl (mapGet_mem _ _ _ hg)
  | none =>
    rw [hg] at h
    exact Or.inr (mapGet_mem _ _ _ h)

/-- The inner table selected by any outer key is empty or one of the stored tables. -/
theorem innerMap_cases {β : Type} (s : ServiceIdx) (m : List (ServiceIdx × List (Int × β))) :
    innerMap s m = [] ∨ (s, innerMap s m) ∈ m := by
  unfold innerMap
  cases hg : mapGet s m with
  | none => exact Or.inl rfl
  | some t => exact Or.inr (mapGet_mem _ _ _ hg)

/-- Membership in a run of `n` consecutive integers starting at `c`. -/
theorem mem_consecutive (n : Nat) (c id : Int) :
    id ∈ (List.range n).map (fun (i : Nat) => (i : Int) + c) ↔ c ≤ id ∧ id < c + n := by
  simp only [List.mem_map, List.mem_range]
  constructor
  · rintro ⟨i, hi, rfl⟩
    omega
  · rintro ⟨h0, h1⟩
    exact ⟨(id - c).toNat, by omega, by omega⟩

/-! ## Key sets of the scope tables -/

theorem commonScopeDefs_keys :
    mapKeys (innerMap Common ScopeDefs) =
      (List.range 28).map (fun (i : Nat) => (i : Int) + 0) := by
  decide

theorem frontendScopeDefs_keys :
    mapKeys (innerMap Frontend ScopeDefs) = (List.range 8).map (fun (i : Nat) => (i : Int) + 28) := by
  decide

theorem historyScopeDefs_keys :
    mapKeys (innerMap History ScopeDefs) = (List.range 8).map (fun (i : Nat) => (i : Int) + 28) := by
  decide

theorem matchingScopeDefs_keys :
    mapKeys (innerMap Matching ScopeDefs) = (List.range 4).map (fun (i : Nat) => (i : Int) + 28) := by
  decide

theorem mem_commonScopeDefs_keys (id : Int) :
    id ∈ mapKeys (innerMap Common ScopeDefs) ↔ 0 ≤ id ∧ id < 28 := by
  rw [commonScopeDefs_keys, mem_consecutive]
  omega

theorem mem_frontendScopeDefs_keys (id : Int) :
    id ∈ mapKeys (innerMap Frontend ScopeDefs) ↔ 28 ≤ id ∧ id < 36 := by
  rw [frontendScopeDefs_keys, mem_consecutive]
  omega

theorem mem_historyScopeDefs_keys (id : Int) :
    id ∈ mapKeys (innerMap History ScopeDefs) ↔ 28 ≤ id ∧ id < 36 := by
  rw [historyScopeDefs_keys, mem_consecutive]
  omega

theorem mem_matchingScopeDefs_keys (id : Int) :
    id ∈ mapKeys (innerMap Matching ScopeDefs) ↔ 28 ≤ id ∧ id < 32 := by
  rw [matchingScopeDefs_keys, mem_consecutive]
  omega

/-- Values that are pairwise distinct identify the entry of a block. -/
theorem eq_of_snd_eq_of_nodup {α : Type} (l : List (α × Int))
    (hl : (l.map Prod.snd).Nodup) (a b : α × Int) (ha : a ∈ l) (hb : b ∈ l)
    (h : a.2 = b.2) : a = b :=
  List.inj_on_of_nodup_map hl ha hb h

/-! ## Claims -/

/-- C1: for every service s in Frontend, History, Matching the key set of
ScopeDefs[s] is disjoint from that of ScopeDefs[Common], the key set of
MetricDefs[s] is disjoint from that of MetricDefs[Common], and so in the
combined (service-specific plus Common) id space no id occurs twice, neither
among the scopes nor among the metrics. -/
theorem C1_service_ids_disjoint_from_common (s : ServiceIdx)
    (hs : s ∈ [Frontend, History, Matching]) :
    (∀ id ∈ mapKeys (innerMap s ScopeDefs), id ∉ mapKeys (innerMap Common ScopeDefs)) ∧
    (∀ id ∈ mapKeys (innerMap s MetricDefs), id ∉ mapKeys (innerMap Common MetricDefs)) ∧
    (mapKeys (innerMap s ScopeDefs ++ innerMap Common ScopeDefs)).Nodup ∧
    (mapKeys (innerMap s MetricDefs ++ innerMap Common MetricDefs)).Nodup := by
  simp only [List.mem_cons, List.mem_singleton, List.not_mem_nil, or_false] at hs
  rcases hs with rfl | rfl | rfl <;> decide

theorem C1_service_ids_disjoint_from_common_witness :
    History ∈ [Frontend, History, Matching] ∧
    (∀ id ∈ mapKeys (innerMap History ScopeDefs),
      id ∉ mapKeys (innerMap Common ScopeDefs)) ∧
    (mapKeys (innerMap History ScopeDefs ++ innerMap Common ScopeDefs)).Nodup :=
  ⟨by decide,
   (C1_service_ids_disjoint_from_common History (by decide)).1,
   (C1_service_ids_disjoint_from_common History (by decide)).2.2.1⟩

/-- C2 as stated fails: the two table entries exist with operation
"StartWorkflowExecution", but the two scope ids are not different integers. -/
theorem C2_start_scope_ids_differ_refuted :
    ¬ ((mapGet StartWorkflowExecutionScope (innerMap Frontend ScopeDefs)).map
          scopeDefinition.operation = some "StartWorkflowExecution" ∧
       (mapGet HistoryStartWorkflowExecutionScope (innerMap History ScopeDefs)).map
          scopeDefinition.operation = some "StartWorkflowExecution" ∧
       StartWorkflowExecutionScope ≠ HistoryStartWorkflowExecutionScope) := by
  decide

/-- C2 (amended): ScopeDefs[Frontend][StartWorkflowExecutionScope] and
ScopeDefs[History][HistoryStartWorkflowExecutionScope] both exist and both have
operation "StartWorkflowExecution"; the two scope ids are the same integer,
NumCommonScopes, and the two entries are told apart by the service index only. -/
theorem C2_start_scopes_same_operation_same_id :
    (mapGet StartWorkflowExecutionScope (innerMap Frontend ScopeDefs)).map
        scopeDefinition.operation = some "StartWorkflowExecution" ∧
    (mapGet HistoryStartWorkflowExecutionScope (innerMap History ScopeDefs)).map
        scopeDefinition.operation = some "StartWorkflowExecution" ∧
    StartWorkflowExecutionScope = HistoryStartWorkflowExecutionScope ∧
    StartWorkflowExecutionScope = NumCommonScopes ∧
    Frontend ≠ History := by
  decide

/-- C3 as stated fails: across all four scope constant blocks two distinct
named scope constants can have the same integer value. -/
theorem C3_scope_ids_unique_per_process_refuted :
    ¬ (∀ a ∈ allScopeConsts, ∀ b ∈ allScopeConsts, a.1 ≠ b.1 → a.2 ≠ b.2) := by
  intro h
  exact h ("StartWorkflowExecutionScope", StartWorkflowExecutionScope) (by decide)
    ("HistoryStartWorkflowExecutionScope", HistoryStartWorkflowExecutionScope) (by decide)
    (by decide) (by decide)

/-- C3 (amended): scope ids are unique per service view: within the Common
block taken together with the block of any one service (Frontend, History or
Matching), any two distinct named scope constants have different integer
values. -/
theorem C3_scope_ids_unique_per_service (blk : List (String × Int))
    (hblk : blk ∈ [frontendScopeConsts, historyScopeConsts, matchingScopeConsts])
    (a b : String × Int) (ha : a ∈ commonScopeConsts ++ blk)
    (hb : b ∈ commonScopeConsts ++ blk) (hne : a.1 ≠ b.1) : a.2 ≠ b.2 := by
  have hnd : ((commonScopeConsts ++ blk).map Prod.snd).Nodup := by
    simp only [List.mem_cons, List.mem_singleton, List.not_mem_nil, or_false] at hblk
    rcases hblk with rfl | rfl | rfl <;> decide
  intro h
  exact hne (congrArg Prod.fst (eq_of_snd_eq_of_nodup _ hnd a b ha hb h))

theorem C3_scope_ids_unique_per_service_witness :
    ("GetTasksScope", GetTasksScope) ∈ commonScopeConsts ++ matchingScopeConsts ∧
    ("MatchingAddActivityTaskScope", MatchingAddActivityTaskScope) ∈
      commonScopeConsts ++ matchingScopeConsts ∧
    GetTasksScope ≠ MatchingAddActivityTaskScope :=
  ⟨by decide, by decide,
   C3_scope_ids_unique_per_service matchingScopeConsts (by decide)
     ("GetTasksScope", GetTasksScope)
     ("MatchingAddActivityTaskScope", MatchingAddActivityTaskScope)
     (by decide) (by decide) (by decide)⟩

/-- C4: for each service s of Common, Frontend, History, Matching and every
integer id, the two-level scope lookup finds a definition if and only if
0 <= id < N_s, with N_s the NumXScopes counter of the service; so Matching with
id NumMatchingScopes fails although that id is valid for Frontend. -/
theorem C4_scope_lookup_succeeds_iff_in_range (id : Int) :
    ((ResolveScope Common id).isSome ↔ 0 ≤ id ∧ id < NumCommonScopes) ∧
    ((ResolveScope Frontend id).isSome ↔ 0 ≤ id ∧ id < NumFrontendScopes) ∧
    ((ResolveScope History id).isSome ↔ 0 ≤ id ∧ id < NumHistoryScopes) ∧
    ((ResolveScope Matching id).isSome ↔ 0 ≤ id ∧ id < NumMatchingScopes) ∧
    ResolveScope Matching NumMatchingScopes = none ∧
    (ResolveScope Frontend NumMatchingScopes).isSome := by
  simp only [ResolveScope_isSome_iff, mem_commonScopeDefs_keys, mem_frontendScopeDefs_keys,
    mem_historyScopeDefs_keys, mem_matchingScopeDefs_keys, NumCommonScopes,
    NumFrontendScopes, NumHistoryScopes, NumMatchingScopes]
  refine ⟨by omega, by omega, by omega, by omega, by decide, by decide⟩

/-- C5: for every service index s and every id for which the two-level scope
lookup finds a definition, the operation tag of that definition is a non-empty
string. -/
theorem C5_resolved_operation_nonempty (s : ServiceIdx) (id : Int) (d : scopeDefinition)
    (h : ResolveScope s id = some d) : d.operation ≠ "" := by
  have hall : ∀ t ∈ ScopeDefs, ∀ e ∈ t.2, e.2.operation ≠ "" := by decide
  have htab : ∀ s' : ServiceIdx, (id, d) ∈ innerMap s' ScopeDefs → d.operation ≠ "" := by
    intro s' hm
    rcases innerMap_cases s' ScopeDefs with h0 | h1
    · rw [h0] at hm
      exact absurd hm (List.not_mem_nil _)
    · exact hall _ h1 _ hm
  rcases ResolveScope_mem s id d h with h1 | h2
  · exact htab s h1
  · exact htab Common h2

theorem C5_resolved_operation_nonempty_witness :
    ResolveScope Matching GetTasksScope = some { operation := "GetTasks" } ∧
    ("GetTasks" : String) ≠ "" :=
  ⟨by decide,
   C5_resolved_operation_nonempty Matching GetTasksScope { operation := "GetTasks" }
     (by decide)⟩

/-- C6: Common entries are available to every service: for s in Frontend,
History, Matching, every scope id k of ScopeDefs[Common] and every metric id m
of MetricDefs[Common], the service-specific table has no entry at that id (no
shadowing) and the two-level lookup returns exactly the Common entry. -/
theorem C6_common_entries_available (s : ServiceIdx)
    (hs : s ∈ [Frontend, History, Matching]) :
    (∀ k ∈ mapKeys (innerMap Common ScopeDefs),
      mapGet k (innerMap s ScopeDefs) = none ∧
      (ResolveScope s k).isSome ∧
      ResolveScope s k = mapGet k (innerMap Common ScopeDefs)) ∧
    (∀ m ∈ mapKeys (innerMap Common MetricDefs),
      mapGet m (innerMap s MetricDefs) = none ∧
      (ResolveMetric s m).isSome ∧
      ResolveMetric s m = mapGet m (innerMap Common MetricDefs)) := by
  simp only [List.mem_cons, List.mem_singleton, List.not_mem_nil, or_false] at hs
  rcases hs with rfl | rfl | rfl <;> decide

theorem C6_common_entries_available_witness :
    Matching ∈ [Frontend, History, Matching] ∧
    UpdateShardScope ∈ mapKeys (innerMap Common ScopeDefs) ∧
    ResolveScope Matching UpdateShardScope = some { operation := "UpdateShard" } ∧
    WorkflowFailures ∈ mapKeys (innerMap Common MetricDefs) ∧
    ResolveMetric Matching WorkflowFailures =
      some { metricName := "errors", metricType := Counter } :=
  ⟨by decide, by decide,
   ((C6_common_entries_available Matching (by decide)).1 UpdateShardScope
      (by decide)).2.2.trans (by decide),
   by decide,
   ((C6_common_entries_available Matching (by decide)).2 WorkflowFailures
      (by decide)).2.2.trans (by decide)⟩

/-- C7: every metric definition stored in MetricDefs, for every service and
metric id present, and every value stored in ServiceMetrics and in
GoRuntimeMetrics has a metricType that is one of Counter, Timer, Gauge, which
are the integers 0, 1, 2. -/
theorem C7_metric_types_supported :
    (∀ t ∈ MetricDefs, ∀ e ∈ t.2, e.2.metricType ∈ [Counter, Timer, Gauge]) ∧
    (∀ e ∈ ServiceMetrics, e.2 ∈ [Counter, Timer, Gauge]) ∧
    (∀ e ∈ GoRuntimeMetrics, e.2 ∈ [Counter, Timer, Gauge]) ∧
    [Counter, Timer, Gauge] = [0, 1, 2] := by
  decide

/-- C8: the Common scope ids are exactly the contiguous integers
0 .. NumCommonScopes-1; the first private id of each service is NumCommonScopes;
the Frontend, History and Matching ids are exactly NumCommonScopes ..
NumFrontendScopes-1, NumHistoryScopes-1 and NumMatchingScopes-1; and in every
block each constant equals its predecessor plus one (stated over the pairs of
neighbouring constants of the block). -/
theorem C8_scope_id_ranges_contiguous (id : Int) :
    (id ∈ commonScopeConsts.map Prod.snd ↔ 0 ≤ id ∧ id < NumCommonScopes) ∧
    (StartWorkflowExecutionScope = NumCommonScopes ∧
      HistoryStartWorkflowExecutionScope = NumCommonScopes ∧
      MatchingPollForDecisionTaskScope = NumCommonScopes) ∧
    (id ∈ frontendScopeConsts.map Prod.snd ↔ NumCommonScopes ≤ id ∧ id < NumFrontendScopes) ∧
    (id ∈ historyScopeConsts.map Prod.snd ↔ NumCommonScopes ≤ id ∧ id < NumHistoryScopes) ∧
    (id ∈ matchingScopeConsts.map Prod.snd ↔ NumCommonScopes ≤ id ∧ id < NumMatchingScopes) ∧
    (∀ blk ∈ [commonScopeConsts, frontendScopeConsts, historyScopeConsts,
        matchingScopeConsts],
      ∀ p ∈ (blk.map Prod.snd).zip (blk.map Prod.snd).tail, p.2 = p.1 + 1) := by
  have hc : commonScopeConsts.map Prod.snd =
      (List.range 28).map (fun (i : Nat) => (i : Int) + 0) := by decide
  have hf : frontendScopeConsts.map Prod.snd =
      (List.range 8).map (fun (i : Nat) => (i : Int) + 28) := by decide
  have hh : historyScopeConsts.map Prod.snd =
      (List.range 8).map (fun (i : Nat) => (i : Int) + 28) := by decide
  have hm : matchingScopeConsts.map Prod.snd =
      (List.range 4).map (fun (i : Nat) => (i : Int) + 28) := by decide
  rw [hc, hf, hh, hm]
  simp only [mem_consecutive, NumCommonScopes, NumFrontendScopes, NumHistoryScopes,
    NumMatchingScopes]
  exact ⟨by omega, by decide, by omega, by omega, by omega, by decide⟩

/-- C9: ScopeDefs[Common] has an entry for CreateShardScope, with operation
"CreateShard" and no additional tags. -/
theorem C9_create_shard_scope_entry :
    mapGet CreateShardScope (innerMap Common ScopeDefs) =
      some { operation := "CreateShard", tags := [] } := by
  decide

/-- C10: MetricDefs[Common] has an entry for WorkflowLatency with metricName
"latency" and metricType Timer; the Common metric table as a whole maps exactly
WorkflowRequests to ("requests", Counter), WorkflowFailures to
("errors", Counter) and WorkflowLatency to ("latency", Timer); the three ids
are pairwise distinct and so are the three names. -/
theorem C10_common_metric_table (id : Int) (d : metricDefinition) :
    mapGet WorkflowLatency (innerMap Common MetricDefs) =
      some { metricName := "latency", metricType := Timer } ∧
    (mapGet id (innerMap Common MetricDefs) = some d ↔
      (id = WorkflowRequests ∧ d = { metricName := "requests", metricType := Counter }) ∨
      (id = WorkflowFailures ∧ d = { metricName := "errors", metricType := Counter }) ∨
      (id = WorkflowLatency ∧ d = { metricName := "latency", metricType := Timer })) ∧
    [WorkflowRequests, WorkflowFailures, WorkflowLatency].Nodup ∧
    (["requests", "errors", "latency"] : List MetricName).Nodup := by
  refine ⟨by decide, ?_, by decide, by decide⟩
  have ht : innerMap Common MetricDefs =
      [ (0, { metricName := "requests", metricType := 0 }),
        (1, { metricName := "errors", metricType := 0 }),
        (2, { metricName := "latency", metricType := 1 }) ] := by decide
  rw [ht]
  simp only [mapGet, WorkflowRequests, WorkflowFailures, WorkflowLatency, Counter, Timer]
  by_cases h0 : id = 0
  · subst h0
    simp [eq_comm]
  · by_cases h1 : id = 1
    · subst h1
      simp [eq_comm]
    · by_cases h2 : id = 2
      · subst h2
        simp [eq_comm]
      · have e0 : ¬ (0 : Int) = id := fun c => h0 c.symm
        have e1 : ¬ (1 : Int) = id := fun c => h1 c.symm
        have e2 : ¬ (2 : Int) = id := fun c => h2 c.symm
        simp [h0, h1, h2, e0, e1, e2]

/-- C11: the service indices are Common = 0, Frontend = 1, History = 2,
Matching = 3 with NumServices = 4, and both outer tables are total over them:
ScopeDefs has an inner table for s exactly when 0 <= s < NumServices, and so
does MetricDefs, so neither table has an outer key outside that range. -/
theorem C11_outer_tables_total (s : ServiceIdx) :
    (Common = 0 ∧ Frontend = 1 ∧ History = 2 ∧ Matching = 3 ∧ NumServices = 4) ∧
    ((mapGet s ScopeDefs).isSome ↔ 0 ≤ s ∧ s < NumServices) ∧
    ((mapGet s MetricDefs).isSome ↔ 0 ≤ s ∧ s < NumServices) ∧
    (s ∈ mapKeys ScopeDefs ↔ 0 ≤ s ∧ s < NumServices) ∧
    (s ∈ mapKeys MetricDefs ↔ 0 ≤ s ∧ s < NumServices) := by
  have hs : mapKeys ScopeDefs = (List.range 4).map (fun (i : Nat) => (i : Int) + 0) := by
    decide
  have hm : mapKeys MetricDefs = (List.range 4).map (fun (i : Nat) => (i : Int) + 0) := by
    decide
  simp only [mapGet_isSome_iff, hs, hm, mem_consecutive, NumServices]
  refine ⟨by decide, ?_, ?_, ?_, ?_⟩ <;> norm_num

/-- C12: within any one service's view, operation tags identify scopes
uniquely: for every service s of Common, Frontend, History, Matching, if two ids
i and j both resolve under the two-level lookup to definitions with the same
operation string, then i = j. -/
theorem C12_operation_identifies_scope (s : ServiceIdx)
    (hs : s ∈ [Common, Frontend, History, Matching]) (i j : Int)
    (di dj : scopeDefinition) (hi : ResolveScope s i = some di)
    (hj : ResolveScope s j = some dj) (hop : di.operation = dj.operation) : i = j := by
  have hnd : ((innerMap s ScopeDefs ++ innerMap Common ScopeDefs).map
      (fun e => e.2.operation)).Nodup ∨
      ((innerMap s ScopeDefs).map (fun e => e.2.operation)).Nodup ∧ s = Common := by
    simp only [List.mem_cons, List.mem_singleton, List.not_mem_nil, or_false] at hs
    rcases hs with rfl | rfl | rfl | rfl
    · exact Or.inr ⟨by decide, rfl⟩
    · exact Or.inl (by decide)
    · exact Or.inl (by decide)
    · exact Or.inl (by decide)
  have hmi := ResolveScope_mem s i di hi
  have hmj := ResolveScope_mem s j dj hj
  rcases hnd with hnd | ⟨hnd, rfl⟩
  · have hi' : (i, di) ∈ innerMap s ScopeDefs ++ innerMap Common ScopeDefs :=
      List.mem_append.mpr hmi
    have hj' : (j, dj) ∈ innerMap s ScopeDefs ++ innerMap Common ScopeDefs :=
      List.mem_append.mpr hmj
    exact congrArg Prod.fst (List.inj_on_of_nodup_map hnd hi' hj' hop)
  · have hi' : (i, di) ∈ innerMap Common ScopeDefs := hmi.elim id id
    have hj' : (j, dj) ∈ innerMap Common ScopeDefs := hmj.elim id id
    exact congrArg Prod.fst (List.inj_on_of_nodup_map hnd hi' hj' hop)

theorem C12_operation_identifies_scope_witness :
    ResolveScope Frontend PollForActivityTaskScope = some { operation := "PollForActivityTask" } ∧
    ResolveScope Frontend (2 + 28) = some { operation := "PollForActivityTask" } ∧
    PollForActivityTaskScope = 2 + 28 :=
  ⟨by decide, by decide,
   C12_operation_identifies_scope Frontend (by decide) PollForActivityTaskScope (2 + 28)
     { operation := "PollForActivityTask" } { operation := "PollForActivityTask" }
     (by decide) (by decide) rfl⟩

/-- C13: client-side and server-side scopes correspond position by position:
for 0 <= i < 8 the entry of ScopeDefs[Common] at
HistoryClientStartWorkflowExecutionScope + i and the entry of ScopeDefs[History]
at HistoryStartWorkflowExecutionScope + i both exist and the operation of the
former is "HistoryClient" followed by the operation of the latter; for
0 <= i < 4 the same holds for MatchingClientPollForDecisionTaskScope + i in
ScopeDefs[Common] and MatchingPollForDecisionTaskScope + i in
ScopeDefs[Matching] with "MatchingClient". -/
theorem C13_client_scopes_mirror_server_scopes (i : Int) (h0 : 0 ≤ i) :
    (i < 8 →
      (mapGet (HistoryStartWorkflowExecutionScope + i) (innerMap History ScopeDefs)).isSome ∧
      (mapGet (HistoryClientStartWorkflowExecutionScope + i) (innerMap Common ScopeDefs)).map
          scopeDefinition.operation =
        (mapGet (HistoryStartWorkflowExecutionScope + i) (innerMap History ScopeDefs)).map
          (fun d => "HistoryClient" ++ d.operation)) ∧
    (i < 4 →
      (mapGet (MatchingPollForDecisionTaskScope + i) (innerMap Matching ScopeDefs)).isSome ∧
      (mapGet (MatchingClientPollForDecisionTaskScope + i) (innerMap Common ScopeDefs)).map
          scopeDefinition.operation =
        (mapGet (MatchingPollForDecisionTaskScope + i) (innerMap Matching ScopeDefs)).map
          (fun d => "MatchingClient" ++ d.operation)) := by
  constructor
  · intro h8
    interval_cases i <;> decide
  · intro h4
    interval_cases i <;> decide

theorem C13_client_scopes_mirror_server_scopes_witness :
    (0 : Int) ≤ 3 ∧ (3 : Int) < 8 ∧ (3 : Int) < 4 ∧
    (mapGet (HistoryClientStartWorkflowExecutionScope + 3) (innerMap Common ScopeDefs)).map
        scopeDefinition.operation = some "HistoryClientRespondActivityTaskCompleted" ∧
    (mapGet (MatchingClientPollForDecisionTaskScope + 3) (innerMap Common ScopeDefs)).map
        scopeDefinition.operation = some "MatchingClientAddDecisionTask" :=
  ⟨by decide, by decide, by decide,
   ((C13_client_scopes_mirror_server_scopes 3 (by decide)).1 (by decide)).2.trans (by decide),
   ((C13_client_scopes_mirror_server_scopes 3 (by decide)).2 (by decide)).2.trans (by decide)⟩

/-- C14: the ten base metric name constants are pairwise distinct strings; the
key sets of ServiceMetrics and GoRuntimeMetrics are disjoint and their union is
exactly these ten names, so each name is a key of exactly one of the two maps;
and each name maps to the type its identifier announces: the Gauge constants to
Gauge, NumGCCounter and RestartCount to Counter, GcPauseMsTimer to Timer. -/
theorem C14_base_metrics_partition_and_types (k : MetricName) :
    baseMetricNames.Nodup ∧
    (k ∈ mapKeys ServiceMetrics ∨ k ∈ mapKeys GoRuntimeMetrics ↔ k ∈ baseMetricNames) ∧
    ¬ (k ∈ mapKeys ServiceMetrics ∧ k ∈ mapKeys GoRuntimeMetrics) ∧
    (∀ n ∈ baseMetricNames,
      (mapGet n ServiceMetrics).isSome ≠ (mapGet n GoRuntimeMetrics).isSome) ∧
    mapGet RestartCount ServiceMetrics = some Counter ∧
    mapGet NumGoRoutinesGauge GoRuntimeMetrics = some Gauge ∧
    mapGet GoMaxProcsGauge GoRuntimeMetrics = some Gauge ∧
    mapGet MemoryAllocatedGauge GoRuntimeMetrics = some Gauge ∧
    mapGet MemoryHeapGauge GoRuntimeMetrics = some Gauge ∧
    mapGet MemoryHeapIdleGauge GoRuntimeMetrics = some Gauge ∧
    mapGet MemoryHeapInuseGauge GoRuntimeMetrics = some Gauge ∧
    mapGet MemoryStackGauge GoRuntimeMetrics = some Gauge ∧
    mapGet NumGCCounter GoRuntimeMetrics = some Counter ∧
    mapGet GcPauseMsTimer GoRuntimeMetrics = some Timer := by
  have hu : mapKeys ServiceMetrics ++ mapKeys GoRuntimeMetrics = baseMetricNames := by
    decide
  have hd : ∀ a ∈ mapKeys ServiceMetrics, a ∉ mapKeys GoRuntimeMetrics := by decide
  refine ⟨by decide, ?_, fun h => hd k h.1 h.2, by decide, by decide, by decide, by decide,
    by decide, by decide, by decide, by decide, by decide, by decide, by decide⟩
  rw [← List.mem_append, hu]

end metrics
